import Mathlib

/-!
Shallow embedding of the entitlement-validation core of
`structured-pdf-parser` (Rust), covering:

* `src/core/src/security/validator.rs` — `ValidationConfig`, `Session`,
  `ConfigManager` (the hardened variant with the hardcoded build anchor);
* `src/core/src/licensing/manager.rs` — `License`, `LicenseManager`,
  `FeatureAccess`;
* `src/core/security/validator.rs` — the legacy duplicate (only the parts a
  claim cites, namespace `Legacy`);
* `src/protected_core/src/lib.rs` — `decrypt_payload` (the AEAD cipher and
  serde parsing are external crates, abstracted as function parameters).

Embedding conventions:

* `chrono::DateTime<Utc>` timestamps are `Int` seconds since the Unix epoch
  (the code only ever compares instants and takes truncated
  second/hour/day quotients, so second granularity is exact for every
  comparison the code performs).
* Every call of `Utc::now()` / `SystemTime::now()` becomes an explicit
  `now : Int` parameter threaded into the function that reads the clock.
  `detect_clock_manipulation` reads two clocks, so it takes two parameters;
  inside `is_valid`, where the Rust code takes both readings from the same
  system clock in the same call, the same `now` is passed twice.
* `std::collections::HashMap` becomes an association list
  `List (key × value)` with `List.lookup` for `get` and `hmInsert`
  (replace semantics) for `insert`.
* Rust's `DefaultHasher` is SipHash-1-3 with both keys zero; it is
  implemented below over `Nat` with explicit `% 2^64` masking.
  `Hash for str` writes the UTF-8 bytes followed by a `0xff` terminator
  byte; `Hash for i64` writes the 8 little-endian bytes of the value cast
  to `u64`. `format!("{:x}", u64)` is lowercase hex with no leading zeros.
* Fallible functions (`Result<(), Box<dyn Error>>` on `&mut self`) become
  functions returning `State × Except String Unit`; the file-system and
  serde layers feeding them are modelled by an input inductive
  (file missing / parse failure / successfully parsed value), since file
  IO and serde are external to this core.
* `Uuid::new_v4()` (randomness) is modelled as an explicit `license_id`
  parameter of `License.new`.
-/

namespace MLCore

/-! ## 64-bit arithmetic over `Nat` -/

def MASK64 : Nat := 2 ^ 64 - 1

def add64 (a b : Nat) : Nat := (a + b) % 2 ^ 64

def xor64 (a b : Nat) : Nat := Nat.xor a b

def rotl64 (x r : Nat) : Nat :=
  Nat.lor (Nat.land (Nat.shiftLeft x r) MASK64) (Nat.shiftRight x (64 - r))

/-! ## SipHash-1-3 (Rust `std::collections::hash_map::DefaultHasher`,
keys `k0 = k1 = 0`) -/

structure SipState where
  v0 : Nat
  v1 : Nat
  v2 : Nat
  v3 : Nat

def sipRound (s : SipState) : SipState :=
  let v0 := add64 s.v0 s.v1
  let v1 := rotl64 s.v1 13
  let v1 := xor64 v1 v0
  let v0 := rotl64 v0 32
  let v2 := add64 s.v2 s.v3
  let v3 := rotl64 s.v3 16
  let v3 := xor64 v3 v2
  let v0 := add64 v0 v3
  let v3 := rotl64 v3 21
  let v3 := xor64 v3 v0
  let v2 := add64 v2 v1
  let v1 := rotl64 v1 17
  let v1 := xor64 v1 v2
  let v2 := rotl64 v2 32
  ⟨v0, v1, v2, v3⟩

/-- Initial state with both keys zero, as `DefaultHasher::new()` uses. -/
def sipInit : SipState :=
  ⟨0x736f6d6570736575, 0x646f72616e646f6d, 0x6c7967656e657261, 0x7465646279746573⟩

/-- Little-endian word value of a byte list (low byte first). -/
def leWord (bs : List Nat) : Nat :=
  bs.foldr (fun b acc => b + 256 * acc) 0

/-- Ingest one 64-bit message word (SipHash-1-3: one compression round). -/
def sipIngest (s : SipState) (m : Nat) : SipState :=
  let s := { s with v3 := xor64 s.v3 m }
  let s := sipRound s
  { s with v0 := xor64 s.v0 m }

/-- Consume whole 8-byte blocks of the message; returns the state and the
trailing bytes (fewer than 8). -/
def sipBlocks (s : SipState) (msg : List Nat) : SipState × List Nat :=
  match msg with
  | b0 :: b1 :: b2 :: b3 :: b4 :: b5 :: b6 :: b7 :: rest =>
      sipBlocks (sipIngest s (leWord [b0, b1, b2, b3, b4, b5, b6, b7])) rest
  | rest => (s, rest)

/-- SipHash-1-3 of a byte list with both keys zero. -/
def sipHash13 (msg : List Nat) : Nat :=
  let p := sipBlocks sipInit msg
  let b := (msg.length % 256) * 2 ^ 56 + leWord p.2
  let s := sipIngest p.1 b
  let s := { s with v2 := xor64 s.v2 0xff }
  let s := sipRound (sipRound (sipRound s))
  xor64 (xor64 s.v0 s.v1) (xor64 s.v2 s.v3)

/-! ## Byte streams fed to the hasher -/

/-- UTF-8 encoding of one scalar value. -/
def utf8Encode (c : Char) : List Nat :=
  let n := c.toNat
  if n < 0x80 then [n]
  else if n < 0x800 then [0xC0 + n / 64, 0x80 + n % 64]
  else if n < 0x10000 then
    [0xE0 + n / 4096, 0x80 + n / 64 % 64, 0x80 + n % 64]
  else
    [0xF0 + n / 262144, 0x80 + n / 4096 % 64, 0x80 + n / 64 % 64, 0x80 + n % 64]

def utf8Bytes (s : String) : List Nat :=
  (s.data.map utf8Encode).flatten

/-- Byte stream of `str::hash`: the UTF-8 bytes then a `0xff` terminator. -/
def strHashBytes (s : String) : List Nat :=
  utf8Bytes s ++ [0xff]

/-- Byte stream of `i64::hash`: little-endian bytes of the value as `u64`
(two's complement). -/
def i64HashBytes (t : Int) : List Nat :=
  let v := (t.emod (2 ^ 64)).toNat
  [v % 256, v / 256 % 256, v / 256 ^ 2 % 256, v / 256 ^ 3 % 256,
   v / 256 ^ 4 % 256, v / 256 ^ 5 % 256, v / 256 ^ 6 % 256, v / 256 ^ 7 % 256]

/-- Lowercase hexadecimal with no leading zeros, as `format!("\x7b:x\x7d", u64)`
renders. -/
def toHexString (n : Nat) : String :=
  ⟨Nat.toDigits 16 n⟩

/-! ## Hardcoded security constants
(`src/core/src/security/validator.rs` lines 6-10, duplicated in
`src/core/src/licensing/manager.rs` lines 9-11) -/

def BUILD_TIMESTAMP : Int := 1734123456

def HARDCODED_EXPIRATION_DAYS : Int := 14

def SECURITY_SALT : String := "ml_core_2024_secure"

def MAX_CLOCK_DRIFT_SECONDS : Int := 86400

def SECONDS_PER_DAY : Int := 86400

/-- `chrono::Duration::days(HARDCODED_EXPIRATION_DAYS)` added to the build
date: the authoritative expiration instant. -/
def hardcodedExpirationTs : Int :=
  BUILD_TIMESTAMP + HARDCODED_EXPIRATION_DAYS * SECONDS_PER_DAY

/-- Shared body of the two identical `generate_security_signature` functions
(the comment in `manager.rs` demands they match): hash the customer id, the
build timestamp and the salt with `DefaultHasher`, render as lowercase hex. -/
def generateSecuritySignatureCore (customer_id : String) (build_ts : Int) : String :=
  toHexString (sipHash13
    (strHashBytes customer_id ++ i64HashBytes build_ts ++ strHashBytes SECURITY_SALT))

/-! ## HashMap as association list -/

def hmLookup {β : Type} (m : List (String × β)) (k : String) : Option β :=
  m.lookup k

def hmInsert {β : Type} (m : List (String × β)) (k : String) (v : β) :
    List (String × β) :=
  (k, v) :: m.filter (fun p => p.1 ≠ k)

/-! ## `ValidationConfig` (`src/core/src/security/validator.rs` lines 13-139) -/

structure ValidationConfig where
  customer_id : String
  features : List String
  expires_at : Int
  config_hash : String
  build_signature : String
deriving DecidableEq, Repr

namespace ValidationConfig

/-- `ValidationConfig::generate_security_signature` (validator.rs 101-112). -/
def generate_security_signature (customer_id : String) (build_ts : Int) : String :=
  generateSecuritySignatureCore customer_id build_ts

/-- `ValidationConfig::new` (validator.rs 23-39). `DateTime::from_timestamp`
succeeds on `BUILD_TIMESTAMP`, so the `unwrap_or_else(Utc::now)` fallback is
never taken. -/
def new (customer_id : String) (features : List String) : ValidationConfig :=
  let build_date := BUILD_TIMESTAMP
  let expiration := build_date + HARDCODED_EXPIRATION_DAYS * SECONDS_PER_DAY
  let signature := generate_security_signature customer_id build_date
  { customer_id := customer_id
    features := features
    expires_at := expiration
    config_hash := ""
    build_signature := signature }

/-- `ValidationConfig::check_hardcoded_expiration` (validator.rs 58-66):
current time must be before `BUILD_TIMESTAMP + 14 days`. The `self` receiver
is unused by the source body. -/
def check_hardcoded_expiration (_self : ValidationConfig) (now : Int) : Bool :=
  now < hardcodedExpirationTs

/-- `ValidationConfig::validate_build_timestamp` (validator.rs 68-75):
the build date must not lie in the future. -/
def validate_build_timestamp (_self : ValidationConfig) (now : Int) : Bool :=
  BUILD_TIMESTAMP ≤ now

/-- `ValidationConfig::detect_clock_manipulation` (validator.rs 77-90):
`utcNow` is `Utc::now().timestamp()`, `sysNow` the `SystemTime::now()`
seconds; the drift is their absolute difference and must stay below
`MAX_CLOCK_DRIFT_SECONDS`. -/
def detect_clock_manipulation (_self : ValidationConfig)
    (utcNow sysNow : Int) : Bool :=
  |sysNow - utcNow| < MAX_CLOCK_DRIFT_SECONDS

/-- `ValidationConfig::validate_security_signature` (validator.rs 92-99):
recomputes the tag from the stored customer id and the hardcoded build
timestamp. -/
def validate_security_signature (self : ValidationConfig) : Bool :=
  self.build_signature == generate_security_signature self.customer_id BUILD_TIMESTAMP

/-- `ValidationConfig::is_valid` (validator.rs 41-56). Both clock readings of
`detect_clock_manipulation` come from the same system clock in the same call,
hence the same `now` twice. -/
def is_valid (self : ValidationConfig) (now : Int) : Bool :=
  let hardcoded_valid := self.check_hardcoded_expiration now
  let build_valid := self.validate_build_timestamp now
  let clock_valid := self.detect_clock_manipulation now now
  let signature_valid := self.validate_security_signature
  hardcoded_valid && build_valid && clock_valid && signature_valid

/-- `ValidationConfig::has_feature` (validator.rs 114-116). -/
def has_feature (self : ValidationConfig) (feature : String) : Bool :=
  self.features.contains feature

/-- `ValidationConfig::validate_config` (validator.rs 118-122): always
returns `true` in the source ("Additional validation layer - always returns
true for now"). -/
def validate_config (_self : ValidationConfig) (_config_data : List Nat) : Bool :=
  true

/-- `ValidationConfig::get_hardcoded_expiration` (validator.rs 124-128). -/
def get_hardcoded_expiration (_self : ValidationConfig) : Int :=
  hardcodedExpirationTs

/-- `ValidationConfig::days_remaining` (validator.rs 130-138):
`chrono::Duration::num_days` is the truncated quotient of the seconds. -/
def days_remaining (self : ValidationConfig) (now : Int) : Int :=
  let expiration := self.get_hardcoded_expiration
  if now < expiration then (expiration - now).tdiv SECONDS_PER_DAY else 0

end ValidationConfig

/-! ## `Session` (`src/core/src/security/validator.rs` lines 141-187) -/

structure Session where
  config : ValidationConfig
  engine_state : List (String × String)
  session_start : Int
  access_count : Nat
deriving DecidableEq, Repr

namespace Session

/-- `Session::new` (validator.rs 149-157); `session_start` is the
`Utc::now()` of the creating call. -/
def new (config : ValidationConfig) (now : Int) : Session :=
  { config := config
    engine_state := []
    session_start := now
    access_count := 0 }

/-- `Session::is_active` (validator.rs 159-166): the config still validates,
the session is younger than 24 hours (`num_hours` truncates), and fewer than
1000 accesses were counted. -/
def is_active (self : Session) (now : Int) : Bool :=
  let session_valid := self.config.is_valid now
  let session_not_expired := (now - self.session_start).tdiv 3600 < 24
  let access_limit_ok := self.access_count < 1000
  session_valid && session_not_expired && access_limit_ok

/-- `Session::get_customer_id` (validator.rs 168-170). -/
def get_customer_id (self : Session) : String :=
  self.config.customer_id

/-- `Session::validate_access` (validator.rs 172-176): only the feature
membership ("Access counting removed for simplicity"). -/
def validate_access (self : Session) (feature : String) : Bool :=
  self.config.has_feature feature

end Session

/-! ## `ConfigManager` (`src/core/src/security/validator.rs` lines 189-268) -/

inductive SecurityLevel where
  | Basic
  | Enhanced
  | Maximum
deriving DecidableEq, Repr

structure ConfigManager where
  sessions : List (String × Session)
  security_level : SecurityLevel
deriving DecidableEq, Repr

/-- Outcome of the external file-system and serde layers feeding
`load_config` / `load_license`: the file is missing, it fails to parse, or it
parses to a value. -/
inductive LoadOutcome (α : Type) where
  | fileMissing
  | parseFailure
  | parsed (value : α)

namespace ConfigManager

/-- `ConfigManager::new` (validator.rs 203-208). -/
def new : ConfigManager :=
  { sessions := [], security_level := SecurityLevel.Maximum }

/-- `ConfigManager::validate_environment` (validator.rs 247-251): always
`true` in the source ("Simplified for now"). -/
def validate_environment (_self : ConfigManager) : Bool :=
  true

/-- `ConfigManager::validate_configuration` (validator.rs 230-245). -/
def validate_configuration (self : ConfigManager) (config : ValidationConfig)
    (now : Int) : Bool :=
  match self.security_level with
  | SecurityLevel.Basic => config.is_valid now
  | SecurityLevel.Enhanced =>
      config.is_valid now &&
      config.validate_config [] &&
      config.days_remaining now > 0
  | SecurityLevel.Maximum =>
      config.is_valid now &&
      config.validate_config [] &&
      config.days_remaining now > 0 &&
      self.validate_environment

/-- `ConfigManager::load_config` (validator.rs 210-228). The returned pair is
the post-call state of `&mut self` and the `Result`; the serde error message
is abstracted to a fixed string. -/
def load_config (self : ConfigManager) (input : LoadOutcome ValidationConfig)
    (now : Int) : ConfigManager × Except String Unit :=
  match input with
  | LoadOutcome.fileMissing => (self, Except.error "Configuration file not found")
  | LoadOutcome.parseFailure => (self, Except.error "serde parse error")
  | LoadOutcome.parsed config =>
      if self.validate_configuration config now then
        let session := Session.new config now
        ({ self with
            sessions := hmInsert self.sessions session.get_customer_id session },
         Except.ok ())
      else
        (self, Except.error "Configuration validation failed")

/-- `ConfigManager::get_session` (validator.rs 253-255). -/
def get_session (self : ConfigManager) (customer_id : String) : Option Session :=
  hmLookup self.sessions customer_id

/-- `ConfigManager::validate_feature` (validator.rs 257-263). -/
def validate_feature (self : ConfigManager) (customer_id feature : String)
    (now : Int) : Bool :=
  match self.get_session customer_id with
  | some session => session.is_active now && session.validate_access feature
  | none => false

end ConfigManager

/-! ## `License` (`src/core/src/licensing/manager.rs` lines 13-91) -/

structure License where
  license_id : String
  customer_id : String
  features : List String
  issued_at : Int
  expires_at : Int
  metadata : List (String × String)
  security_signature : String
deriving DecidableEq, Repr

namespace License

/-- `License::generate_security_signature` (manager.rs 69-82); the comment in
the source requires it to match the security module's function, and it does
(same hasher, same salt). -/
def generate_security_signature (customer_id : String) (build_ts : Int) : String :=
  generateSecuritySignatureCore customer_id build_ts

/-- `License::new` (manager.rs 26-44). `Uuid::new_v4()` is modelled as the
explicit `license_id` parameter; `DateTime::from_timestamp` succeeds on
`BUILD_TIMESTAMP`, so the `unwrap_or_else(Utc::now)` fallback is never
taken. -/
def new (license_id customer_id : String) (features : List String) : License :=
  let build_date := BUILD_TIMESTAMP
  let expiration := build_date + HARDCODED_EXPIRATION_DAYS * SECONDS_PER_DAY
  let signature := generate_security_signature customer_id build_date
  { license_id := license_id
    customer_id := customer_id
    features := features
    issued_at := build_date
    expires_at := expiration
    metadata := []
    security_signature := signature }

/-- `License::is_valid` (manager.rs 46-54): delegates to a freshly built
`ValidationConfig` carrying only the customer id and features. -/
def is_valid (self : License) (now : Int) : Bool :=
  let validation_config := ValidationConfig.new self.customer_id self.features
  validation_config.is_valid now

/-- `License::has_feature` (manager.rs 56-58). -/
def has_feature (self : License) (feature : String) : Bool :=
  self.features.contains feature

/-- `License::days_remaining` (manager.rs 60-67). -/
def days_remaining (self : License) (now : Int) : Int :=
  let validation_config := ValidationConfig.new self.customer_id self.features
  validation_config.days_remaining now

/-- `License::validate_signature` (manager.rs 84-90): recomputes the expected
tag from the stored customer id and the hardcoded `BUILD_TIMESTAMP` — no
field of the record other than `customer_id` and `security_signature` enters
the check. -/
def validate_signature (self : License) : Bool :=
  let expected_signature := generate_security_signature self.customer_id BUILD_TIMESTAMP
  self.security_signature == expected_signature

end License

/-! ## `LicenseManager` (`src/core/src/licensing/manager.rs` lines 93-199) -/

structure LicenseManager where
  licenses : List (String × License)
  config_path : String
  security_manager : ConfigManager
deriving DecidableEq, Repr

namespace LicenseManager

/-- `LicenseManager::new` (manager.rs 101-107). -/
def new (config_path : String) : LicenseManager :=
  { licenses := [], config_path := config_path,
    security_manager := ConfigManager.new }

/-- `LicenseManager::validate_license` (manager.rs 128-146): all four layers
must pass. -/
def validate_license (self : LicenseManager) (license : License) (now : Int) : Bool :=
  let basic_valid := license.is_valid now
  let signature_valid := license.validate_signature
  let security_valid :=
    self.security_manager.validate_feature license.customer_id "license_validation" now
  let expiration_valid := license.days_remaining now > 0
  basic_valid && signature_valid && security_valid && expiration_valid

/-- `LicenseManager::load_license` (manager.rs 109-126). The returned pair is
the post-call state of `&mut self` and the `Result`; the file-system and
serde layers are the `LoadOutcome` input. -/
def load_license (self : LicenseManager) (input : LoadOutcome License)
    (now : Int) : LicenseManager × Except String Unit :=
  match input with
  | LoadOutcome.fileMissing => (self, Except.error "License file not found")
  | LoadOutcome.parseFailure => (self, Except.error "serde parse error")
  | LoadOutcome.parsed license =>
      if self.validate_license license now then
        ({ self with
            licenses := hmInsert self.licenses license.customer_id license },
         Except.ok ())
      else
        (self, Except.error "License validation failed")

/-- `LicenseManager::validate_license_access` (manager.rs 148-159). -/
def validate_license_access (self : LicenseManager) (customer_id feature : String)
    (now : Int) : Bool :=
  match hmLookup self.licenses customer_id with
  | some license =>
      let license_valid := license.is_valid now
      let feature_available := license.has_feature feature
      let security_valid := self.security_manager.validate_feature customer_id feature now
      license_valid && feature_available && security_valid
  | none => false

/-- `LicenseManager::get_license_info` (manager.rs 161-163). -/
def get_license_info (self : LicenseManager) (customer_id : String) : Option License :=
  hmLookup self.licenses customer_id

end LicenseManager

/-! ## `FeatureAccess` (`src/core/src/licensing/manager.rs` lines 201-265) -/

structure FeatureAccess where
  manager : LicenseManager
  access_log : List (String × Nat)
deriving DecidableEq, Repr

namespace FeatureAccess

/-- `FeatureAccess::new` (manager.rs 208-213). -/
def new (config_path : String) : FeatureAccess :=
  { manager := LicenseManager.new config_path, access_log := [] }

/-- `FeatureAccess::check_access` (manager.rs 215-226). The Rust function
takes `&self`: it computes `access_log.get(customer_id).unwrap_or(&0) + 1`
into a local, gates on it, and never writes the map — so this is a pure
function of the state. -/
def check_access (self : FeatureAccess) (customer_id feature : String)
    (now : Int) : Bool :=
  let access_count := (hmLookup self.access_log customer_id).getD 0 + 1
  if access_count > 1000 then
    false
  else
    self.manager.validate_license_access customer_id feature now

/-- `FeatureAccess::get_available_features` (manager.rs 228-238): the stored
license's features while `License::is_valid` holds, else empty; no session
state is consulted. -/
def get_available_features (self : FeatureAccess) (customer_id : String)
    (now : Int) : List String :=
  match self.manager.get_license_info customer_id with
  | some license => if license.is_valid now then license.features else []
  | none => []

end FeatureAccess

/-! ## Legacy duplicate (`src/core/security/validator.rs`), the parts a claim
cites -/

namespace Legacy

structure ValidationConfig where
  customer_id : String
  features : List String
  expires_at : Int
  config_hash : String
deriving DecidableEq, Repr

/-- Legacy `ValidationConfig::validate_config`
(`src/core/security/validator.rs` lines 33-37): always `true`. -/
def ValidationConfig.validate_config (_self : ValidationConfig)
    (_config_data : List Nat) : Bool :=
  true

end Legacy

/-! ## `decrypt_payload` (`src/protected_core/src/lib.rs` lines 189-207)

The AES-256-GCM cipher comes from an external crate and serde_json parsing is
likewise external, so both are abstract parameters: `aeadDecrypt key nonce
ciphertext` returns the authenticated plaintext or `none` on rejection, and
`parseRules` deserializes a plaintext into `ExtractionRules`. Modelled from
the spec: §4.5 requires the cipher to be an AEAD that rejects any tampered
nonce or ciphertext and any wrong key; that rejection behaviour is exactly
the `none` case of the parameter. -/

structure ExtractionRules where
  module_patterns : List String
  step_patterns : List String
  flow_patterns : List String
  taxonomy_patterns : List String
  llm_prompts : List (String × String)
  confidence_thresholds : List (String × Float)

/-- `decrypt_payload` (lib.rs 189-207): the blob is `nonce(12) || ciphertext`;
shorter input is rejected structurally, a cipher rejection becomes the
"Decryption failed" error, and only a plaintext that both authenticates and
deserializes yields a rule set. -/
def decrypt_payload
    (aeadDecrypt : List Nat → List Nat → List Nat → Option (List Nat))
    (parseRules : List Nat → Option ExtractionRules)
    (encrypted_data : List Nat) (key : List Nat) :
    Except String ExtractionRules :=
  if encrypted_data.length < 12 then
    Except.error "Invalid encrypted data"
  else
    let nonce := encrypted_data.take 12
    let ciphertext := encrypted_data.drop 12
    match aeadDecrypt key nonce ciphertext with
    | none => Except.error "Decryption failed"
    | some plaintext =>
        match parseRules plaintext with
        | some rules => Except.ok rules
        | none => Except.error "serde parse error"

/-! ## Theorems -/

set_option maxRecDepth 1000000

/-- Helper: once the hardcoded expiration instant is reached, layer 1 of
`ValidationConfig::is_valid` fails, so the whole conjunction is `false`. -/
theorem ValidationConfig.is_valid_false_of_expired (vc : ValidationConfig)
    (now : Int) (h : hardcodedExpirationTs ≤ now) : vc.is_valid now = false := by
  simp only [ValidationConfig.is_valid, ValidationConfig.check_hardcoded_expiration]
  rw [decide_eq_false (not_lt.mpr h)]
  simp

/-- Helper: `License::is_valid` delegates to a fresh `ValidationConfig`, so it
too fails once the hardcoded expiration instant is reached. -/
theorem License.is_valid_false_of_expired_license (l : License) (now : Int)
    (h : hardcodedExpirationTs ≤ now) : l.is_valid now = false :=
  ValidationConfig.is_valid_false_of_expired _ now h

/-- Claim C1: for every license record and every `now` at or past
`BUILD_TIMESTAMP + 14 days`, `ValidationConfig::is_valid` and
`License::is_valid` return `false` and `load_license` on the parsed record
fails with the validation error, leaving the registry unchanged — regardless
of the record's own `expires_at` field (the record is universally
quantified, so its `expires_at` may lie arbitrarily far in the future). -/
theorem C1_hardcoded_expiration_dominates
    (license : License) (vc : ValidationConfig) (mgr : LicenseManager)
    (now : Int) (h : hardcodedExpirationTs ≤ now) :
    vc.is_valid now = false ∧
    license.is_valid now = false ∧
    mgr.load_license (LoadOutcome.parsed license) now
      = (mgr, Except.error "License validation failed") := by
  refine ⟨ValidationConfig.is_valid_false_of_expired vc now h,
    License.is_valid_false_of_expired_license license now h, ?_⟩
  have hvl : mgr.validate_license license now = false := by
    simp only [LicenseManager.validate_license,
      License.is_valid_false_of_expired_license license now h, Bool.false_and]
  simp [LicenseManager.load_license, hvl]

/-- Witness for C1: at `now = hardcodedExpirationTs` exactly, a license whose
own `expires_at` lies a billion seconds in the future is still rejected. -/
theorem C1_hardcoded_expiration_dominates_witness :
    hardcodedExpirationTs ≤ hardcodedExpirationTs ∧
    ((ValidationConfig.new "cust-1" ["feature_a"]).is_valid hardcodedExpirationTs = false ∧
     ({ License.new "lic-1" "cust-1" ["feature_a"] with
          expires_at := hardcodedExpirationTs + 1000000000 }).is_valid
        hardcodedExpirationTs = false ∧
     (LicenseManager.new "cfg").load_license
        (LoadOutcome.parsed
          { License.new "lic-1" "cust-1" ["feature_a"] with
              expires_at := hardcodedExpirationTs + 1000000000 })
        hardcodedExpirationTs
       = (LicenseManager.new "cfg", Except.error "License validation failed")) :=
  ⟨le_refl _,
   C1_hardcoded_expiration_dominates _ _ _ hardcodedExpirationTs (le_refl _)⟩

/-- Claim C2 (evaluating the code at the failing state): `FeatureAccess::new`
starts with an empty access log, and `check_access` — which borrows `&self`
and never writes the log — behaves on any feature-access state whose log has
no entry for the customer exactly like the underlying
`validate_license_access`: the cap branch is inert and no counter advances. -/
theorem C2_access_count_never_persisted
    (config_path customer_id feature : String) (now : Int) (fa : FeatureAccess) :
    (FeatureAccess.new config_path).access_log = [] ∧
    (hmLookup fa.access_log customer_id = none →
      fa.check_access customer_id feature now
        = fa.manager.validate_license_access customer_id feature now) := by
  refine ⟨rfl, fun h => ?_⟩
  simp [FeatureAccess.check_access, h]

/-- Witness for C2: on the freshly constructed state the cap branch is not
taken and `check_access` just defers to `validate_license_access`. -/
theorem C2_access_count_never_persisted_witness :
    hmLookup (FeatureAccess.new "cfg").access_log "cust-1" = none ∧
    (FeatureAccess.new "cfg").check_access "cust-1" "feature_a" 0
      = (FeatureAccess.new "cfg").manager.validate_license_access "cust-1" "feature_a" 0 :=
  ⟨rfl, (C2_access_count_never_persisted "cfg" "cust-1" "feature_a" 0
          (FeatureAccess.new "cfg")).2 rfl⟩

/-- Claim C3: `detect_clock_manipulation` passes exactly when the absolute
difference of its two clock readings is below the 24-hour tolerance, and on
two readings of the same clock (as `is_valid` takes them) it always passes. -/
theorem C3_clock_check_is_self_referential
    (vc : ValidationConfig) (utcNow sysNow : Int) :
    (vc.detect_clock_manipulation utcNow sysNow = true
        ↔ |sysNow - utcNow| < MAX_CLOCK_DRIFT_SECONDS) ∧
    vc.detect_clock_manipulation utcNow utcNow = true := by
  constructor
  · simp [ValidationConfig.detect_clock_manipulation]
  · simp [ValidationConfig.detect_clock_manipulation, MAX_CLOCK_DRIFT_SECONDS]

/-- Claim C4: signature generation is deterministic (a pure function, and the
licensing copy agrees with the security module's copy, as the source comment
demands), and every license built by `License::new` passes
`validate_signature` (sign-then-verify round trip). -/
theorem C4_signature_deterministic_roundtrip
    (customer_id license_id : String) (build_ts : Int) (features : List String) :
    License.generate_security_signature customer_id build_ts
      = License.generate_security_signature customer_id build_ts ∧
    License.generate_security_signature customer_id build_ts
      = ValidationConfig.generate_security_signature customer_id build_ts ∧
    (License.new license_id customer_id features).validate_signature = true := by
  refine ⟨rfl, rfl, ?_⟩
  simp [License.new, License.validate_signature]

/-- Counterexample to claim C5: `License::validate_signature` recomputes the
expected tag from the hardcoded `BUILD_TIMESTAMP`, never from the record's
anchor field, so a validly signed record whose `issued_at` anchor is altered
after signing still verifies — the claimed tamper-evidence of the anchor
timestamp fails. -/
theorem C5_anchor_tamper_still_verifies :
    (License.new "lic-1" "cust-1" ["feature_a"]).validate_signature = true ∧
    ({ License.new "lic-1" "cust-1" ["feature_a"] with
        issued_at := (License.new "lic-1" "cust-1" ["feature_a"]).issued_at + 1
      }).validate_signature = true := by
  constructor <;> simp [License.new, License.validate_signature]

/-- Claim C5 as amended: for a validly signed record, replacing the
`signature` field with any different string always flips verification to
`false`; replacing the `identity` flips it to `false` whenever the recomputed
tag differs from the original tag; and the anchor timestamp (`issued_at`)
plays no role in verification at all, because the expected tag is recomputed
from the hardcoded build timestamp. The analogous signature-field statement
holds for `ValidationConfig::validate_security_signature`. -/
theorem C5_single_field_tamper_amended
    (l : License) (hl : l.validate_signature = true) :
    (∀ s, s ≠ l.security_signature →
        ({ l with security_signature := s }).validate_signature = false) ∧
    (∀ c, License.generate_security_signature c BUILD_TIMESTAMP
            ≠ License.generate_security_signature l.customer_id BUILD_TIMESTAMP →
        ({ l with customer_id := c }).validate_signature = false) ∧
    (∀ t, ({ l with issued_at := t }).validate_signature = l.validate_signature) ∧
    (∀ (vc : ValidationConfig), vc.validate_security_signature = true →
        ∀ s, s ≠ vc.build_signature →
          ({ vc with build_signature := s }).validate_security_signature = false) := by
  have hsig : l.security_signature
      = License.generate_security_signature l.customer_id BUILD_TIMESTAMP := by
    simpa [License.validate_signature] using hl
  refine ⟨fun s hs => ?_, fun c hc => ?_, fun t => rfl, fun vc hvc s hs => ?_⟩
  · rw [hsig] at hs
    simp [License.validate_signature, hs]
  · have : l.security_signature ≠ License.generate_security_signature c BUILD_TIMESTAMP := by
      rw [hsig]; exact fun h => hc h.symm
    simp [License.validate_signature, this]
  · have hvsig : vc.build_signature
        = ValidationConfig.generate_security_signature vc.customer_id BUILD_TIMESTAMP := by
      simpa [ValidationConfig.validate_security_signature] using hvc
    rw [hvsig] at hs
    simp [ValidationConfig.validate_security_signature, hs]

/-- Witness for the amended C5: on a concrete freshly signed license,
replacing the signature with a junk string fails, replacing the identity with
`"cust-2"` (whose tag concretely differs) fails, and replacing the anchor
changes nothing. -/
theorem C5_single_field_tamper_amended_witness :
    ({ License.new "lic-1" "cust-1" [] with
        security_signature := "deadbeef" }).validate_signature = false ∧
    ({ License.new "lic-1" "cust-1" [] with
        customer_id := "cust-2" }).validate_signature = false ∧
    ({ License.new "lic-1" "cust-1" [] with
        issued_at := 0 }).validate_signature
      = (License.new "lic-1" "cust-1" []).validate_signature ∧
    ({ ValidationConfig.new "cust-1" [] with
        build_signature := "deadbeef" }).validate_security_signature = false :=
  have h := C5_single_field_tamper_amended (License.new "lic-1" "cust-1" []) (by decide)
  ⟨h.1 "deadbeef" (by decide), h.2.1 "cust-2" (by decide), h.2.2.1 0,
   h.2.2.2 (ValidationConfig.new "cust-1" []) (by decide) "deadbeef" (by decide)⟩

/-- Claim C6: whenever `load_license` or `load_config` returns an error — file
missing, parse failure, or any validation layer failing — the session/license
registry (the whole manager state) is exactly what it was before the call. -/
theorem C6_activation_atomic_on_failure :
    (∀ (m : LicenseManager) (input : LoadOutcome License) (now : Int) (e : String),
        (m.load_license input now).2 = Except.error e →
        (m.load_license input now).1 = m) ∧
    (∀ (c : ConfigManager) (input : LoadOutcome ValidationConfig) (now : Int) (e : String),
        (c.load_config input now).2 = Except.error e →
        (c.load_config input now).1 = c) := by
  constructor
  · intro m input now e h
    cases input with
    | fileMissing => rfl
    | parseFailure => rfl
    | parsed license =>
        by_cases hv : m.validate_license license now
        · simp [LicenseManager.load_license, hv] at h
        · simp [LicenseManager.load_license, hv]
  · intro c input now e h
    cases input with
    | fileMissing => rfl
    | parseFailure => rfl
    | parsed config =>
        by_cases hv : c.validate_configuration config now
        · simp [ConfigManager.load_config, hv] at h
        · simp [ConfigManager.load_config, hv]

/-- Witness for C6: a missing license file and a missing configuration file
both error out and leave the fresh managers untouched. -/
theorem C6_activation_atomic_on_failure_witness :
    ((LicenseManager.new "cfg").load_license LoadOutcome.fileMissing 0).2
      = Except.error "License file not found" ∧
    ((LicenseManager.new "cfg").load_license LoadOutcome.fileMissing 0).1
      = LicenseManager.new "cfg" ∧
    (ConfigManager.new.load_config LoadOutcome.fileMissing 0).2
      = Except.error "Configuration file not found" ∧
    (ConfigManager.new.load_config LoadOutcome.fileMissing 0).1
      = ConfigManager.new :=
  ⟨rfl,
   C6_activation_atomic_on_failure.1 (LicenseManager.new "cfg")
     LoadOutcome.fileMissing 0 "License file not found" rfl,
   rfl,
   C6_activation_atomic_on_failure.2 ConfigManager.new
     LoadOutcome.fileMissing 0 "Configuration file not found" rfl⟩

/-- Counterexample to claim C7: a state holding a stored license that
validates, alongside a session for the same identity whose access counter has
reached the 1000 cap. The session is not live (`Session::is_active` is
`false`), yet `get_available_features` — which consults only
`License::is_valid`, never the session — returns the full feature set instead
of the empty list the claim requires. -/
theorem C7_features_returned_despite_dead_session :
    (Session.new (ValidationConfig.new "cust-1" ["feature_a"]) BUILD_TIMESTAMP
      ).access_count = 0 ∧
    ({ Session.new (ValidationConfig.new "cust-1" ["feature_a"]) BUILD_TIMESTAMP with
        access_count := 1000 }).is_active BUILD_TIMESTAMP = false ∧
    ({ manager :=
          { licenses := [("cust-1", License.new "lic-1" "cust-1" ["feature_a"])],
            config_path := "cfg",
            security_manager :=
              { sessions :=
                  [("cust-1",
                    { Session.new (ValidationConfig.new "cust-1" ["feature_a"])
                        BUILD_TIMESTAMP with access_count := 1000 })],
                security_level := SecurityLevel.Maximum } },
        access_log := [] } : FeatureAccess).get_available_features
      "cust-1" BUILD_TIMESTAMP = ["feature_a"] := by
  refine ⟨rfl, ?_, ?_⟩ <;> decide

/-- Claim C7 as amended: `get_available_features` returns the stored license's
feature set exactly when a license is stored for the identity and
`License::is_valid` holds at the query time, and the empty list otherwise —
in particular empty when no license is stored or the stored license no longer
validates; session liveness (window, access cap) is not consulted. -/
theorem C7_features_gated_by_license_validity_only
    (fa : FeatureAccess) (customer_id : String) (now : Int) :
    (fa.manager.get_license_info customer_id = none →
        fa.get_available_features customer_id now = []) ∧
    (∀ l, fa.manager.get_license_info customer_id = some l →
        fa.get_available_features customer_id now
          = if l.is_valid now then l.features else []) := by
  constructor
  · intro h
    simp [FeatureAccess.get_available_features, h]
  · intro l h
    simp [FeatureAccess.get_available_features, h]

/-- Witness for the amended C7: with no stored license the feature list is
empty, and with a stored license that no longer validates (queried at the
hardcoded expiration instant) it is empty as well. -/
theorem C7_features_gated_by_license_validity_only_witness :
    (FeatureAccess.new "cfg").manager.get_license_info "cust-1" = none ∧
    (FeatureAccess.new "cfg").get_available_features "cust-1" 0 = [] ∧
    ({ FeatureAccess.new "cfg" with
        manager := { LicenseManager.new "cfg" with
          licenses := [("cust-1", License.new "lic-1" "cust-1" ["feature_a"])] }
      }).get_available_features "cust-1" hardcodedExpirationTs = [] :=
  ⟨rfl,
   (C7_features_gated_by_license_validity_only (FeatureAccess.new "cfg")
      "cust-1" 0).1 rfl,
   by
    have h := (C7_features_gated_by_license_validity_only
      ({ FeatureAccess.new "cfg" with
          manager := { LicenseManager.new "cfg" with
            licenses := [("cust-1", License.new "lic-1" "cust-1" ["feature_a"])] } })
      "cust-1" hardcodedExpirationTs).2
      (License.new "lic-1" "cust-1" ["feature_a"]) rfl
    rw [h, License.is_valid_false_of_expired_license _ _ (le_refl _)]
    simp⟩

/-- Claim C8: the feature-gate queries return `false` (they are total Boolean
functions, so they cannot raise) on every unmet condition — identity absent
from the registry, stored license invalid, feature not in the set, or the
stored session over its access quota — so a `false` result does not
distinguish never-activated from expired from over-quota. -/
theorem C8_feature_gates_fail_closed
    (fa : FeatureAccess) (cm : ConfigManager) (customer_id feature : String)
    (now : Int) :
    (fa.manager.get_license_info customer_id = none →
        fa.manager.validate_license_access customer_id feature now = false ∧
        fa.check_access customer_id feature now = false) ∧
    (cm.get_session customer_id = none →
        cm.validate_feature customer_id feature now = false) ∧
    (∀ l, fa.manager.get_license_info customer_id = some l →
        l.is_valid now = false →
        fa.manager.validate_license_access customer_id feature now = false) ∧
    (∀ l, fa.manager.get_license_info customer_id = some l →
        l.has_feature feature = false →
        fa.manager.validate_license_access customer_id feature now = false) ∧
    (∀ s, cm.get_session customer_id = some s → 1000 ≤ s.access_count →
        cm.validate_feature customer_id feature now = false) := by
  refine ⟨fun h => ⟨?_, ?_⟩, fun h => ?_, fun l h hv => ?_, fun l h hf => ?_,
    fun s h hq => ?_⟩
  · simp [LicenseManager.validate_license_access,
      LicenseManager.get_license_info] at h ⊢
    rw [h]
  · have hv : fa.manager.validate_license_access customer_id feature now = false := by
      simp [LicenseManager.validate_license_access,
        LicenseManager.get_license_info] at h ⊢
      rw [h]
    simp [FeatureAccess.check_access, hv]
  · simp [ConfigManager.validate_feature, h]
  · simp [LicenseManager.validate_license_access,
      LicenseManager.get_license_info] at h
    simp [LicenseManager.validate_license_access, h, hv]
  · simp [LicenseManager.validate_license_access,
      LicenseManager.get_license_info] at h
    simp [LicenseManager.validate_license_access, h, hf]
  · have hact : s.is_active now = false := by
      simp [Session.is_active, decide_eq_false (not_lt.mpr hq)]
    simp [ConfigManager.validate_feature, h, hact]

/-- Witness for C8: on fresh (empty) managers the identity is absent and all
three gates return `false`; and a state whose only session is over quota also
gates to `false`. -/
theorem C8_feature_gates_fail_closed_witness :
    (FeatureAccess.new "cfg").manager.get_license_info "cust-1" = none ∧
    (FeatureAccess.new "cfg").manager.validate_license_access "cust-1" "feature_a" 0 = false ∧
    (FeatureAccess.new "cfg").check_access "cust-1" "feature_a" 0 = false ∧
    ConfigManager.new.validate_feature "cust-1" "feature_a" 0 = false ∧
    ({ ConfigManager.new with
        sessions := [("cust-1",
          { Session.new (ValidationConfig.new "cust-1" ["feature_a"]) 0 with
              access_count := 1000 })] }).validate_feature "cust-1" "feature_a" 0
      = false :=
  have h1 := C8_feature_gates_fail_closed (FeatureAccess.new "cfg")
    ConfigManager.new "cust-1" "feature_a" 0
  have h2 := C8_feature_gates_fail_closed (FeatureAccess.new "cfg")
    ({ ConfigManager.new with
        sessions := [("cust-1",
          { Session.new (ValidationConfig.new "cust-1" ["feature_a"]) 0 with
              access_count := 1000 })] }) "cust-1" "feature_a" 0
  ⟨rfl, (h1.1 rfl).1, (h1.1 rfl).2, h1.2.1 rfl,
   h2.2.2.2.2 _ rfl (le_refl 1000)⟩

/-- Claim C9: `decrypt_payload` splits its input as `nonce(12) || ciphertext`
and fails closed: a successful result is only ever the full parse of a
plaintext the authenticated cipher accepted for exactly that key, nonce and
ciphertext; an input shorter than 12 bytes is rejected structurally; and
whenever the AEAD rejects (wrong key or tampered nonce/ciphertext, per the
spec's cipher contract) the result is the decryption-failure error — never a
structurally valid but semantically wrong rule set. -/
theorem C9_decrypt_payload_fails_closed
    (aeadDecrypt : List Nat → List Nat → List Nat → Option (List Nat))
    (parseRules : List Nat → Option ExtractionRules)
    (blob key : List Nat) :
    (∀ rules, decrypt_payload aeadDecrypt parseRules blob key = Except.ok rules →
        12 ≤ blob.length ∧
        ∃ plaintext,
          aeadDecrypt key (blob.take 12) (blob.drop 12) = some plaintext ∧
          parseRules plaintext = some rules) ∧
    (blob.length < 12 →
        decrypt_payload aeadDecrypt parseRules blob key
          = Except.error "Invalid encrypted data") ∧
    (12 ≤ blob.length →
        aeadDecrypt key (blob.take 12) (blob.drop 12) = none →
        decrypt_payload aeadDecrypt parseRules blob key
          = Except.error "Decryption failed") := by
  refine ⟨fun rules h => ?_, fun h => ?_, fun hge hnone => ?_⟩
  · by_cases hlen : blob.length < 12
    · simp [decrypt_payload, hlen] at h
    · cases haead : aeadDecrypt key (blob.take 12) (blob.drop 12) with
      | none => simp [decrypt_payload, hlen, haead] at h
      | some plaintext =>
          cases hp : parseRules plaintext with
          | none => simp [decrypt_payload, hlen, haead, hp] at h
          | some r =>
              simp [decrypt_payload, hlen, haead, hp] at h
              subst h
              exact ⟨le_of_not_lt hlen, plaintext, rfl, hp⟩
  · simp [decrypt_payload, h]
  · simp [decrypt_payload, not_lt.mpr hge, hnone]

/-- Witness for C9: a 12-byte blob under a cipher that rejects it yields the
decryption-failure error, and an 11-byte blob is rejected structurally. -/
theorem C9_decrypt_payload_fails_closed_witness :
    12 ≤ (List.replicate 12 0).length ∧
    (fun (_ : List Nat) (_ : List Nat) (_ : List Nat) =>
        (none : Option (List Nat))) [] ((List.replicate 12 0).take 12)
        ((List.replicate 12 0).drop 12) = none ∧
    decrypt_payload
        (fun _ _ _ => none) (fun _ => none) (List.replicate 12 0) []
      = Except.error "Decryption failed" ∧
    (List.replicate 11 0).length < 12 ∧
    decrypt_payload
        (fun _ _ _ => none) (fun _ => none) (List.replicate 11 0) []
      = Except.error "Invalid encrypted data" :=
  ⟨by decide, rfl,
   (C9_decrypt_payload_fails_closed (fun _ _ _ => none) (fun _ => none)
      (List.replicate 12 0) []).2.2 (by decide) rfl,
   by decide,
   (C9_decrypt_payload_fails_closed (fun _ _ _ => none) (fun _ => none)
      (List.replicate 11 0) []).2.1 (by decide)⟩

/-- Claim C10: the environment-attestation and configuration-data layers are
vacuous — `validate_environment` is `true` for every manager state,
`validate_config` is `true` for every config and every byte slice (in the
hardened and the legacy variant alike) — and consequently
`validate_configuration` reduces, at every security level, to the
`is_valid` / `days_remaining` checks alone: those two layers can never make a
pipeline run fail. -/
theorem C10_vacuous_validation_layers :
    (∀ cm : ConfigManager, cm.validate_environment = true) ∧
    (∀ (vc : ValidationConfig) (d : List Nat), vc.validate_config d = true) ∧
    (∀ (vc : Legacy.ValidationConfig) (d : List Nat), vc.validate_config d = true) ∧
    (∀ (cm : ConfigManager) (config : ValidationConfig) (now : Int),
        cm.validate_configuration config now
          = match cm.security_level with
            | SecurityLevel.Basic => config.is_valid now
            | _ => config.is_valid now && decide (config.days_remaining now > 0)) := by
  refine ⟨fun _ => rfl, fun _ _ => rfl, fun _ _ => rfl, fun cm config now => ?_⟩
  cases h : cm.security_level <;>
    simp [ConfigManager.validate_configuration, h,
      ValidationConfig.validate_config, ConfigManager.validate_environment]

end MLCore
